import Mathlib

/-!
Shallow embedding of the shading pipeline in `src/shaders.rs` of the
ShadersWithRust repository (a software-rendered solar-system visualizer).

Modelling conventions:
* Rust `f32` values are modelled as elements of a linear ordered field `K`
  (instantiated at `ℚ` for concrete evaluation and at `ℝ` where the code
  uses `sin`, `sqrt` or `powf`).  The arithmetic of the claims under
  scrutiny involves only values that are exactly representable, so the
  exact-field model is faithful there.
* Rust's saturating float-to-`u8` cast (`as u8`: round toward zero, then
  clamp to `[0, 255]`) is modelled by `asU8`.
* `x >> 16` / `x >> 8` on unsigned integers are modelled by `/ 65536` and
  `/ 256`; `x & 0xFF` by `% 256`.
* `FastNoiseLite` is an external crate: a noise field is modelled as an
  abstract pair of sampling functions (`NoiseField`).
* `color.rs`, `fragment.rs`, `vertex.rs` and `celestial_body.rs` are not
  part of the given sources; the types they declare are modelled from the
  spec (see the individual doc comments).
-/

namespace ShadersRs

/-- Modelled from the spec: `Color` (from the missing `color.rs`) holds three
8-bit channels red/green/blue; every operation in `shaders.rs` constructs
channels through saturating `as u8` casts, so the channel values produced by
this development always lie in `[0, 255]`. -/
structure Color where
  r : ℕ
  g : ℕ
  b : ℕ
  deriving DecidableEq, Repr

/-- Modelled from the spec: `Color::new(r, g, b)` packs three channel values. -/
def Color.new (r g b : ℕ) : Color := ⟨r, g, b⟩

/-- Modelled from the spec: `Color::to_hex` returns the packed 24-bit
representation `r·2^16 + g·2^8 + b`. -/
def Color.to_hex (c : Color) : ℕ := c.r * 65536 + c.g * 256 + c.b

/-- Modelled from the spec: `Color::from_hex` extracts the three 8-bit
channels of a packed 24-bit value. -/
def Color.from_hex (n : ℕ) : Color := ⟨n / 65536 % 256, n / 256 % 256, n % 256⟩

variable {K : Type} [LinearOrderedField K] [FloorRing K]

/-- Rust's saturating `f32 as u8` cast: truncate toward zero, clamp to
`[0, 255]`.  (For the nonnegative values produced by the shaders this is
`min 255 ⌊x⌋`; negative inputs collapse to `0` through `Int.toNat`.) -/
def asU8 (x : K) : ℕ := (min 255 ⌊x⌋).toNat

/-- `lerp_color` from `src/shaders.rs` (lines 116–123), translated verbatim:
the red and green contributions of `a` use the *unmasked* packed value
(`a.to_hex()` and `a.to_hex() >> 8`), exactly as in the source. -/
def lerp_color (a b : Color) (t : K) : Color :=
  let t' := max 0 (min 1 t)
  Color.new
    (asU8 ((a.to_hex : K) * (1 - t') + ((b.to_hex / 65536 : ℕ) : K) * t'))
    (asU8 (((a.to_hex / 256 : ℕ) : K) * (1 - t') + ((b.to_hex / 256 % 256 : ℕ) : K) * t'))
    (asU8 (((a.to_hex % 256 : ℕ) : K) * (1 - t') + ((b.to_hex % 256 : ℕ) : K) * t'))

/-- `blend_colors` from `src/shaders.rs` (lines 125–143): channel-correct
linear blend with the factor clamped to `[0, 1]`. -/
def blend_colors (base overlay : Color) (factor : K) : Color :=
  let f := max 0 (min 1 factor)
  let r1 := (base.to_hex / 65536 % 256 : ℕ)
  let g1 := (base.to_hex / 256 % 256 : ℕ)
  let b1 := (base.to_hex % 256 : ℕ)
  let r2 := (overlay.to_hex / 65536 % 256 : ℕ)
  let g2 := (overlay.to_hex / 256 % 256 : ℕ)
  let b2 := (overlay.to_hex % 256 : ℕ)
  Color.new
    (asU8 ((r1 : K) * (1 - f) + (r2 : K) * f))
    (asU8 ((g1 : K) * (1 - f) + (g2 : K) * f))
    (asU8 ((b1 : K) * (1 - f) + (b2 : K) * f))

/-- Modelled from the spec: `Color * f32` (scalar intensity modulation from
the missing `color.rs`): channel-wise multiplication, clamped, never
wrapping. -/
def Color.smul (c : Color) (k : K) : Color :=
  Color.new (asU8 ((c.r : K) * k)) (asU8 ((c.g : K) * k)) (asU8 ((c.b : K) * k))

-- Basic bounds for the saturating cast.
theorem asU8_le (x : K) : asU8 x ≤ 255 := by
  unfold asU8
  omega

theorem asU8_natCast (n : ℕ) : asU8 ((n : K)) = min 255 n := by
  unfold asU8
  rw [Int.floor_natCast]
  omega

theorem clamp01_zero : (max 0 (min 1 (0 : K))) = 0 := by
  rw [min_eq_right zero_le_one, max_self]

theorem clamp01_one : (max 0 (min 1 (1 : K))) = 1 := by
  rw [min_self, max_eq_right zero_le_one]

/-- Evaluation of `lerp_color` at `t = 0`: because the source uses the
unmasked packed value of `a` for the red and green channels, the result is
built from `a.to_hex` and `a.to_hex / 256` rather than the true channels. -/
theorem lerp_color_zero (a b : Color) :
    lerp_color a b (0 : K) =
      Color.new (min 255 a.to_hex) (min 255 (a.to_hex / 256)) (min 255 (a.to_hex % 256)) := by
  simp only [lerp_color, clamp01_zero, sub_zero, mul_one, mul_zero, add_zero]
  rw [asU8_natCast, asU8_natCast, asU8_natCast]

/-- Evaluation of `lerp_color` at `t = 1`: the `b` contributions are the
properly extracted channels, so `t = 1` returns `b` (for in-range colors). -/
theorem lerp_color_one (a b : Color) :
    lerp_color a b (1 : K) =
      Color.new (min 255 (b.to_hex / 65536)) (min 255 (b.to_hex / 256 % 256))
        (min 255 (b.to_hex % 256)) := by
  simp only [lerp_color, clamp01_one, sub_self, mul_zero, zero_add, mul_one]
  rw [asU8_natCast, asU8_natCast, asU8_natCast]

/-- C2: the spec's endpoint law `lerp(a, b, 0) = a` (within ±1 per channel)
fails in the source because `lerp_color` feeds `a.to_hex()` (the full packed
value) into the red channel: at `a = (0,0,2)`, `b = (0,0,0)`, `t = 0` the
result's red channel is `2`, two units away from `a.r = 0`. -/
theorem lerp_color_endpoint_bug :
    lerp_color (Color.new 0 0 2) (Color.new 0 0 0) (0 : ℚ) = Color.new 2 0 2 ∧
      2 ≤ (lerp_color (Color.new 0 0 2) (Color.new 0 0 0) (0 : ℚ)).r - (Color.new 0 0 2).r := by
  rw [lerp_color_zero]
  exact ⟨by decide, by decide⟩

/-- C4: the spec's idempotence law `lerp(a, a, t) = a` fails in the source
for the same reason: at `a = (0,0,1)`, `t = 0` (which lies in `[0,1]`) the
result is `(1,0,1) ≠ (0,0,1)`. -/
theorem lerp_color_idempotence_bug :
    lerp_color (Color.new 0 0 1) (Color.new 0 0 1) (0 : ℚ) = Color.new 1 0 1 ∧
      lerp_color (Color.new 0 0 1) (Color.new 0 0 1) (0 : ℚ) ≠ Color.new 0 0 1 := by
  rw [lerp_color_zero]
  exact ⟨by decide, by decide⟩

/-- A 2D vector (`nalgebra_glm::Vec2`). -/
structure Vec2 (K : Type) where
  x : K
  y : K
  deriving DecidableEq

/-- A 3D vector (`nalgebra_glm::Vec3`). -/
structure Vec3 (K : Type) where
  x : K
  y : K
  z : K
  deriving DecidableEq

/-- A 4D vector (`nalgebra_glm::Vec4`). -/
structure Vec4 (K : Type) where
  x : K
  y : K
  z : K
  w : K
  deriving DecidableEq

/-- `nalgebra_glm::Mat4`, stored column-major exactly as nalgebra stores it:
`m0 m1 m2 m3` is the first column, `m4 … m7` the second, and so on, so the
Rust linear index `m[k]` is the field `mk`. -/
structure Mat4 (K : Type) where
  m0 : K
  m1 : K
  m2 : K
  m3 : K
  m4 : K
  m5 : K
  m6 : K
  m7 : K
  m8 : K
  m9 : K
  m10 : K
  m11 : K
  m12 : K
  m13 : K
  m14 : K
  m15 : K
  deriving DecidableEq

/-- `nalgebra_glm::Mat3` with fields named by (row, column) as in
`Matrix3::new(m11, m12, m13, m21, …)`, whose arguments are given in
row-major order. -/
structure Mat3 (K : Type) where
  m11 : K
  m12 : K
  m13 : K
  m21 : K
  m22 : K
  m23 : K
  m31 : K
  m32 : K
  m33 : K
  deriving DecidableEq

/-- Matrix–vector product for the 4×4 matrix (row `i` of the result is the
dot product of row `i` with the vector; row `i`, column `j` is field
`m(4j+i)`). -/
def Mat4.mulVec (M : Mat4 K) (v : Vec4 K) : Vec4 K :=
  ⟨M.m0 * v.x + M.m4 * v.y + M.m8 * v.z + M.m12 * v.w,
   M.m1 * v.x + M.m5 * v.y + M.m9 * v.z + M.m13 * v.w,
   M.m2 * v.x + M.m6 * v.y + M.m10 * v.z + M.m14 * v.w,
   M.m3 * v.x + M.m7 * v.y + M.m11 * v.z + M.m15 * v.w⟩

/-- Matrix–matrix product of two 4×4 matrices (column-major storage). -/
def Mat4.mul (A B : Mat4 K) : Mat4 K :=
  ⟨A.m0 * B.m0 + A.m4 * B.m1 + A.m8 * B.m2 + A.m12 * B.m3,
   A.m1 * B.m0 + A.m5 * B.m1 + A.m9 * B.m2 + A.m13 * B.m3,
   A.m2 * B.m0 + A.m6 * B.m1 + A.m10 * B.m2 + A.m14 * B.m3,
   A.m3 * B.m0 + A.m7 * B.m1 + A.m11 * B.m2 + A.m15 * B.m3,
   A.m0 * B.m4 + A.m4 * B.m5 + A.m8 * B.m6 + A.m12 * B.m7,
   A.m1 * B.m4 + A.m5 * B.m5 + A.m9 * B.m6 + A.m13 * B.m7,
   A.m2 * B.m4 + A.m6 * B.m5 + A.m10 * B.m6 + A.m14 * B.m7,
   A.m3 * B.m4 + A.m7 * B.m5 + A.m11 * B.m6 + A.m15 * B.m7,
   A.m0 * B.m8 + A.m4 * B.m9 + A.m8 * B.m10 + A.m12 * B.m11,
   A.m1 * B.m8 + A.m5 * B.m9 + A.m9 * B.m10 + A.m13 * B.m11,
   A.m2 * B.m8 + A.m6 * B.m9 + A.m10 * B.m10 + A.m14 * B.m11,
   A.m3 * B.m8 + A.m7 * B.m9 + A.m11 * B.m10 + A.m15 * B.m11,
   A.m0 * B.m12 + A.m4 * B.m13 + A.m8 * B.m14 + A.m12 * B.m15,
   A.m1 * B.m12 + A.m5 * B.m13 + A.m9 * B.m14 + A.m13 * B.m15,
   A.m2 * B.m12 + A.m6 * B.m13 + A.m10 * B.m14 + A.m14 * B.m15,
   A.m3 * B.m12 + A.m7 * B.m13 + A.m11 * B.m14 + A.m15 * B.m15⟩

/-- Transpose of a 3×3 matrix. -/
def Mat3.transpose (A : Mat3 K) : Mat3 K :=
  ⟨A.m11, A.m21, A.m31, A.m12, A.m22, A.m32, A.m13, A.m23, A.m33⟩

/-- Determinant of a 3×3 matrix (cofactor expansion, as nalgebra computes
it). -/
def Mat3.det (A : Mat3 K) : K :=
  A.m11 * (A.m22 * A.m33 - A.m23 * A.m32) -
    A.m12 * (A.m21 * A.m33 - A.m23 * A.m31) +
    A.m13 * (A.m21 * A.m32 - A.m22 * A.m31)

/-- Inverse of a 3×3 matrix by the adjugate formula (meaningful only when
the determinant is nonzero; `try_inverse` guards the determinant). -/
def Mat3.inv (A : Mat3 K) : Mat3 K :=
  ⟨(A.m22 * A.m33 - A.m23 * A.m32) / A.det,
   (A.m13 * A.m32 - A.m12 * A.m33) / A.det,
   (A.m12 * A.m23 - A.m13 * A.m22) / A.det,
   (A.m23 * A.m31 - A.m21 * A.m33) / A.det,
   (A.m11 * A.m33 - A.m13 * A.m31) / A.det,
   (A.m13 * A.m21 - A.m11 * A.m23) / A.det,
   (A.m21 * A.m32 - A.m22 * A.m31) / A.det,
   (A.m12 * A.m31 - A.m11 * A.m32) / A.det,
   (A.m11 * A.m22 - A.m12 * A.m21) / A.det⟩

/-- The 3×3 identity matrix (`Mat3::identity()`). -/
def Mat3.identity : Mat3 K := ⟨1, 0, 0, 0, 1, 0, 0, 0, 1⟩

/-- `try_inverse` of nalgebra for 3×3 real matrices: `none` exactly when the
determinant is zero, otherwise the adjugate inverse. -/
def Mat3.try_inverse [DecidableEq K] (A : Mat3 K) : Option (Mat3 K) :=
  if A.det = 0 then none else some A.inv

/-- Matrix–vector product for the 3×3 matrix. -/
def Mat3.mulVec (A : Mat3 K) (v : Vec3 K) : Vec3 K :=
  ⟨A.m11 * v.x + A.m12 * v.y + A.m13 * v.z,
   A.m21 * v.x + A.m22 * v.y + A.m23 * v.z,
   A.m31 * v.x + A.m32 * v.y + A.m33 * v.z⟩

theorem Mat3.identity_mulVec (v : Vec3 K) : Mat3.identity.mulVec v = v := by
  obtain ⟨x, y, z⟩ := v
  simp [Mat3.mulVec, Mat3.identity]

/-- The 3×3 matrix the vertex shader builds from the model matrix
(`Mat3::new(m[0], m[1], m[2], m[4], m[5], m[6], m[8], m[9], m[10])`,
lines 65–69): because `Matrix3::new` takes its arguments row-major while the
linear indices walk the columns of the model matrix, this matrix is the
*transpose* of the model matrix's upper-left 3×3 block. -/
def modelMat3 (M : Mat4 K) : Mat3 K :=
  ⟨M.m0, M.m1, M.m2, M.m4, M.m5, M.m6, M.m8, M.m9, M.m10⟩

/-- The mathematical upper-left 3×3 block of a 4×4 matrix (row `i`, column
`j` of the block is row `i`, column `j` of the matrix). -/
def upperLeft3 (M : Mat4 K) : Mat3 K :=
  ⟨M.m0, M.m4, M.m8, M.m1, M.m5, M.m9, M.m2, M.m6, M.m10⟩

theorem modelMat3_transpose (M : Mat4 K) :
    (modelMat3 M).transpose = upperLeft3 M := rfl

/-- A noise field of the external `fastnoise_lite` crate, abstracted by its
two sampling functions (`get_noise_2d`, `get_noise_3d`). -/
structure NoiseField (K : Type) where
  get_noise_2d : K → K → K
  get_noise_3d : K → K → K → K

/-- `Uniforms` from `src/shaders.rs` (lines 10–17): the per-draw-call bundle
of transform matrices, animation time and the shared noise field. -/
structure Uniforms (K : Type) where
  model_matrix : Mat4 K
  view_matrix : Mat4 K
  projection_matrix : Mat4 K
  viewport_matrix : Mat4 K
  time : K
  noise : NoiseField K

/-- Modelled from the spec: `Vertex` (from the missing `vertex.rs`) carries
object-space position, normal, texture coordinates, an intrinsic color, and
the derived transformed position and normal. -/
structure Vertex (K : Type) where
  position : Vec3 K
  normal : Vec3 K
  tex_coords : Vec2 K
  color : Color
  transformed_position : Vec3 K
  transformed_normal : Vec3 K

/-- `vertex_shader` from `src/shaders.rs` (lines 42–86), translated
verbatim: homogeneous transform by `projection · view · model`, perspective
division by `w`, viewport transform, and the normal transform through
`modelMat3(model).transpose().try_inverse().unwrap_or(identity)`.
(Division is exact field division; the degenerate `w = 0` case is a
documented caller precondition in the spec and outside every claim.) -/
def vertex_shader [DecidableEq K] (vertex : Vertex K) (uniforms : Uniforms K) : Vertex K :=
  let position : Vec4 K := ⟨vertex.position.x, vertex.position.y, vertex.position.z, 1⟩
  let transformed :=
    ((uniforms.projection_matrix.mul uniforms.view_matrix).mul uniforms.model_matrix).mulVec
      position
  let w := transformed.w
  let ndc_position : Vec4 K := ⟨transformed.x / w, transformed.y / w, transformed.z / w, 1⟩
  let screen_position := uniforms.viewport_matrix.mulVec ndc_position
  let model_mat3 := modelMat3 uniforms.model_matrix
  let normal_matrix := (model_mat3.transpose.try_inverse).getD Mat3.identity
  let transformed_normal := normal_matrix.mulVec vertex.normal
  { position := vertex.position
    normal := vertex.normal
    tex_coords := vertex.tex_coords
    color := vertex.color
    transformed_position := ⟨screen_position.x, screen_position.y, screen_position.z⟩
    transformed_normal := transformed_normal }

/-- C3 (amended): because `Matrix3::new` receives the column-major linear
entries in row-major positions, the built 3×3 block is already transposed,
and the subsequent `.transpose().try_inverse()` therefore yields the plain
inverse of the upper-left 3×3 block `M` — not `inverse(transpose(M))`.  For
every vertex and uniforms with invertible upper-left block, the transformed
normal is `inverse(M)` applied to the input normal. -/
theorem vertex_shader_normal_inverse [DecidableEq K] (v : Vertex K) (u : Uniforms K)
    (h : (upperLeft3 u.model_matrix).det ≠ 0) :
    (vertex_shader v u).transformed_normal =
      (upperLeft3 u.model_matrix).inv.mulVec v.normal := by
  unfold vertex_shader
  dsimp only
  rw [modelMat3_transpose, Mat3.try_inverse, if_neg h]
  rfl

/-- C7: when the rotation block the vertex shader inverts is singular
(zero determinant after the transposition), `try_inverse` yields `none`,
the identity matrix is substituted, and the transformed normal equals the
input normal; the stage is a total function and cannot panic. -/
theorem vertex_shader_singular_fallback [DecidableEq K] (v : Vertex K) (u : Uniforms K)
    (h : ((modelMat3 u.model_matrix).transpose).det = 0) :
    (vertex_shader v u).transformed_normal = v.normal := by
  unfold vertex_shader
  dsimp only
  rw [Mat3.try_inverse, if_pos h]
  exact Mat3.identity_mulVec v.normal

-- Concrete data for the vertex-shader claims (over ℚ, where evaluation is
-- exact).
def mat4IdentityQ : Mat4 ℚ := ⟨1, 0, 0, 0, 0, 1, 0, 0, 0, 0, 1, 0, 0, 0, 0, 1⟩

def mat4ZeroQ : Mat4 ℚ := ⟨0, 0, 0, 0, 0, 0, 0, 0, 0, 0, 0, 0, 0, 0, 0, 0⟩

/-- A model matrix whose upper-left 3×3 block is the shear
`[[1,1,0],[0,1,0],[0,0,1]]` (stored column-major). -/
def mat4ShearQ : Mat4 ℚ := ⟨1, 0, 0, 0, 1, 1, 0, 0, 0, 0, 1, 0, 0, 0, 0, 1⟩

def zeroNoiseQ : NoiseField ℚ := ⟨fun _ _ => 0, fun _ _ _ => 0⟩

def shearUniformsQ : Uniforms ℚ :=
  ⟨mat4ShearQ, mat4IdentityQ, mat4IdentityQ, mat4IdentityQ, 0, zeroNoiseQ⟩

def singularUniformsQ : Uniforms ℚ :=
  ⟨mat4ZeroQ, mat4IdentityQ, mat4IdentityQ, mat4IdentityQ, 0, zeroNoiseQ⟩

def probeVertexQ : Vertex ℚ :=
  ⟨⟨0, 0, 0⟩, ⟨0, 1, 0⟩, ⟨0, 0⟩, Color.new 0 0 0, ⟨0, 0, 0⟩, ⟨0, 0, 0⟩⟩

/-- C3 (counterexample): for the shear model matrix (invertible upper-left
block `M`) and normal `(0,1,0)`, the vertex shader produces `(-1,1,0)`,
whereas `inverse(transpose(M))` applied to the normal gives `(0,1,0)`:
the claim's formula does not describe the code. -/
theorem vertex_shader_normal_not_inverse_transpose :
    (upperLeft3 shearUniformsQ.model_matrix).det ≠ 0 ∧
      (vertex_shader probeVertexQ shearUniformsQ).transformed_normal ≠
        ((upperLeft3 shearUniformsQ.model_matrix).transpose.inv).mulVec probeVertexQ.normal := by
  constructor
  · norm_num [upperLeft3, shearUniformsQ, mat4ShearQ, Mat3.det]
  · norm_num [vertex_shader, probeVertexQ, shearUniformsQ, mat4ShearQ, mat4IdentityQ,
      modelMat3, upperLeft3, Mat3.transpose, Mat3.try_inverse, Mat3.det, Mat3.inv,
      Mat3.mulVec, Mat3.identity, Mat4.mul, Mat4.mulVec, Vec3.mk.injEq]

/-- C3 (witness): the amended theorem applied at the concrete shear matrix. -/
theorem vertex_shader_normal_inverse_witness :
    (upperLeft3 shearUniformsQ.model_matrix).det ≠ 0 ∧
      (vertex_shader probeVertexQ shearUniformsQ).transformed_normal =
        (upperLeft3 shearUniformsQ.model_matrix).inv.mulVec probeVertexQ.normal :=
  ⟨by norm_num [upperLeft3, shearUniformsQ, mat4ShearQ, Mat3.det],
    vertex_shader_normal_inverse probeVertexQ shearUniformsQ
      (by norm_num [upperLeft3, shearUniformsQ, mat4ShearQ, Mat3.det])⟩

/-- C7 (witness): the fallback theorem applied at the all-zero model
matrix. -/
theorem vertex_shader_singular_fallback_witness :
    ((modelMat3 singularUniformsQ.model_matrix).transpose).det = 0 ∧
      (vertex_shader probeVertexQ singularUniformsQ).transformed_normal =
        probeVertexQ.normal :=
  ⟨by norm_num [modelMat3, singularUniformsQ, mat4ZeroQ, Mat3.transpose, Mat3.det],
    vertex_shader_singular_fallback probeVertexQ singularUniformsQ
      (by norm_num [modelMat3, singularUniformsQ, mat4ZeroQ, Mat3.transpose, Mat3.det])⟩

/-- Modelled from the spec: `Fragment` (from the missing `fragment.rs`) —
the interpolated per-pixel data the shaders read: an object-space surface
position (`vertex_position`) and a scalar light intensity. -/
structure Fragment where
  vertex_position : Vec3 ℝ
  intensity : ℝ

/-- Modelled from the spec: the closed `ShaderType` tag set (from the
missing `celestial_body.rs`): {Sun, RockyPlanet, GasGiant, Moon,
RingedPlanet}. -/
inductive ShaderType where
  | Sun
  | RockyPlanet
  | GasGiant
  | Moon
  | RingedPlanet
  deriving DecidableEq

/-- `sun_shader` from `src/shaders.rs` (lines 148–202): radial gradient,
plasma layer, threshold-gated sunspots with corona glow.  The fragment's
`intensity` is never read (the Sun is self-illuminating). -/
noncomputable def sun_shader (fragment : Fragment) (uniforms : Uniforms ℝ) : Color :=
  let position := fragment.vertex_position
  let time := uniforms.time
  let distance_from_center :=
    Real.sqrt (position.x * position.x + position.y * position.y + position.z * position.z)
  let core_color := Color.from_hex 0xFFFF00
  let mid_color := Color.from_hex 0xFF6600
  let edge_color := Color.from_hex 0xFF0000
  let base_color :=
    if distance_from_center < 0.5 then
      lerp_color core_color mid_color (distance_from_center * 2)
    else
      lerp_color mid_color edge_color ((distance_from_center - 0.5) * 2)
  let plasma_noise := uniforms.noise.get_noise_3d (position.x * 8 + time * 0.3)
    (position.y * 8) (position.z * 8 + time * 0.3 * 0.5)
  let plasma_intensity := (plasma_noise + 1) * 0.5
  let plasma_color := Color.from_hex 0xFFAA00
  let with_plasma := blend_colors base_color plasma_color (plasma_intensity * 0.3)
  let spot_noise := uniforms.noise.get_noise_3d (position.x * 3)
    (position.y * 3 + time * 0.1) (position.z * 3)
  if spot_noise > 0.5 then
    let spot_factor := (spot_noise - 0.5) * 2
    let dark_spot := Color.from_hex 0x994400
    let with_spots := blend_colors with_plasma dark_spot (spot_factor * 0.4)
    let edge_glow := (1 - distance_from_center) ^ (3 : ℝ)
    let glow_color := Color.from_hex 0xFFFFAA
    blend_colors with_spots glow_color (edge_glow * 0.3)
  else
    with_plasma

/-- Layer 1 of `rocky_planet_shader` (lines 225–239): continents vs. ocean
from the continent-noise sample. -/
noncomputable def rockyBaseColor (continent_noise : ℝ) : Color :=
  let ocean_color := Color.from_hex 0x1a4d7a
  let land_color := Color.from_hex 0x3d8c40
  let mountain_color := Color.from_hex 0x8b7355
  if continent_noise > 0 then
    if continent_noise > 0.5 then
      lerp_color land_color mountain_color ((continent_noise - 0.5) * 2)
    else
      land_color
  else
    let deep_ocean := Color.from_hex 0x0a2342
    lerp_color ocean_color deep_ocean |continent_noise|

/-- Layer 2 of `rocky_planet_shader` (lines 249–256): desert/forest detail,
applied on land only. -/
noncomputable def rockyDetail (continent_noise detail_noise : ℝ) (base_color : Color) : Color :=
  if continent_noise > 0 then
    let detail_color :=
      if detail_noise > 0.3 then Color.from_hex 0xc2b280 else Color.from_hex 0x228b22
    blend_colors base_color detail_color (|detail_noise| * 0.3)
  else
    base_color

/-- The snow color of the rocky planet's polar caps (line 223). -/
def snow_color : Color := Color.from_hex 0xf0f0f0

/-- Layer 3 of `rocky_planet_shader` (lines 259–263): polar snow caps,
blended with factor `(|y| - 0.7) / (1 - 0.7)` when `|y| > 0.7`. -/
noncomputable def rockyPolar (position_y : ℝ) (base_color : Color) : Color :=
  let polar_threshold : ℝ := 0.7
  if |position_y| > polar_threshold then
    blend_colors base_color snow_color ((|position_y| - polar_threshold) / (1 - polar_threshold))
  else
    base_color

/-- Layer 4 of `rocky_planet_shader` (lines 275–279): animated cloud
cover. -/
noncomputable def rockyClouds (cloud_value : ℝ) (base_color : Color) : Color :=
  if cloud_value > 0.5 then
    blend_colors base_color (Color.from_hex 0xffffff) ((cloud_value - 0.5) * 2 * 0.6)
  else
    base_color

/-- `rocky_planet_shader` from `src/shaders.rs` (lines 207–284): the four
layers above applied in order, then scaled by the fragment's light
intensity.  `cloud_noise` models the fractal field built by
`create_cloud_noise()` (line 266); `FastNoiseLite` is an external crate, so
the field is an abstract parameter. -/
noncomputable def rocky_planet_shader (cloud_noise : NoiseField ℝ) (fragment : Fragment)
    (uniforms : Uniforms ℝ) : Color :=
  let position := fragment.vertex_position
  let time := uniforms.time
  let continent_noise :=
    uniforms.noise.get_noise_3d (position.x * 4) (position.y * 4) (position.z * 4)
  let detail_noise :=
    uniforms.noise.get_noise_3d (position.x * 10 + 100) (position.y * 10) (position.z * 10)
  let cloud_value :=
    cloud_noise.get_noise_3d (position.x * 6 + time * 0.2) (position.y * 6) (position.z * 6)
  (rockyClouds cloud_value
      (rockyPolar position.y
        (rockyDetail continent_noise detail_noise (rockyBaseColor continent_noise)))).smul
    fragment.intensity

/-- The four-tone cyclic band gradient of `gas_giant_shader`
(lines 302–320), as a function of the band value. -/
noncomputable def gasBandBase (band_value : ℝ) : Color :=
  let color1 := Color.from_hex 0xd4a574
  let color2 := Color.from_hex 0xc17f4a
  let color3 := Color.from_hex 0x8b6239
  let color4 := Color.from_hex 0xe6c9a8
  if band_value < 0.25 then
    lerp_color color1 color2 (band_value * 4)
  else if band_value < 0.5 then
    lerp_color color2 color3 ((band_value - 0.25) * 4)
  else if band_value < 0.75 then
    lerp_color color3 color4 ((band_value - 0.5) * 4)
  else
    lerp_color color4 color1 ((band_value - 0.75) * 4)

/-- `gas_giant_shader` from `src/shaders.rs` (lines 289–373), translated
verbatim.  Note that `band_noise` (line 296) is sampled but never read
afterwards — the band value is `(sin(y·15) + 1) · 0.5`, a direct sine of
position. -/
noncomputable def gas_giant_shader (fragment : Fragment) (uniforms : Uniforms ℝ) : Color :=
  let position := fragment.vertex_position
  let time := uniforms.time
  let band_frequency : ℝ := 15
  let band_position := position.y * band_frequency
  let band_noise := uniforms.noise.get_noise_2d band_position (time * 0.1)
  let band_value := (Real.sin band_position + 1) * 0.5
  let base_color := gasBandBase band_value
  let turbulence_noise := uniforms.noise.get_noise_3d (position.x * 8 + time * 0.3)
    (position.y * 8 * 0.5) (position.z * 8)
  let turbulent_offset := turbulence_noise * 0.3
  let turbulent_band := (Real.sin (band_position + turbulent_offset) + 1) * 0.5
  let turbulence_color :=
    if turbulent_band > 0.6 then Color.from_hex 0xa0785a else Color.from_hex 0xe8d4b8
  let with_turbulence := blend_colors base_color turbulence_color (|turbulence_noise| * 0.4)
  let distance_to_spot := Real.sqrt ((position.x - 0.3) ^ 2 + (position.y - 0.2) ^ 2)
  if distance_to_spot < 0.3 then
    let spot_noise := uniforms.noise.get_noise_3d (position.x * 5 + time * 0.05)
      (position.y * 5) (position.z * 5)
    let spot_factor := (1 - distance_to_spot / 0.3) * ((spot_noise + 1) * 0.5)
    let with_spot := blend_colors with_turbulence (Color.from_hex 0xc74440) (spot_factor * 0.7)
    let detail_noise := uniforms.noise.get_noise_3d (position.x * 20 - time * 0.2)
      (position.y * 20) (position.z * 20)
    let final_color := blend_colors with_spot (Color.from_hex 0xf5e6d3) (|detail_noise| * 0.2)
    final_color.smul fragment.intensity
  else
    with_turbulence.smul fragment.intensity

/-- `moon_shader` from `src/shaders.rs` (lines 378–429): gray terrain,
thresholded craters, fine grain, and a contrast-enhanced lighting exponent
of 0.8.  No layer reads the animation time. -/
noncomputable def moon_shader (fragment : Fragment) (uniforms : Uniforms ℝ) : Color :=
  let position := fragment.vertex_position
  let base_color := Color.from_hex 0x9b9b9b
  let dark_color := Color.from_hex 0x6b6b6b
  let light_color := Color.from_hex 0xc5c5c5
  let terrain_noise :=
    uniforms.noise.get_noise_3d (position.x * 8) (position.y * 8) (position.z * 8)
  let terrain_color :=
    if terrain_noise > 0 then lerp_color base_color light_color terrain_noise
    else lerp_color base_color dark_color (-terrain_noise)
  let crater_noise :=
    uniforms.noise.get_noise_3d (position.x * 10 + 500) (position.y * 10) (position.z * 10)
  let final_color :=
    if crater_noise > 0.7 then
      blend_colors terrain_color (Color.from_hex 0x4a4a4a) ((crater_noise - 0.7) / 0.3 * 0.8)
    else
      terrain_color
  let detail_noise :=
    uniforms.noise.get_noise_3d (position.x * 25) (position.y * 25) (position.z * 25)
  let final_color2 := blend_colors final_color (Color.from_hex 0xb0b0b0) (|detail_noise| * 0.15)
  final_color2.smul (fragment.intensity ^ (0.8 : ℝ))

/-- `fragment_shader` from `src/shaders.rs` (lines 89–97): the exhaustive
dispatcher over the five shader tags; `RingedPlanet` routes to
`gas_giant_shader`, exactly like `GasGiant`. -/
noncomputable def fragment_shader (cloud_noise : NoiseField ℝ) (fragment : Fragment)
    (uniforms : Uniforms ℝ) (shader_type : ShaderType) : Color :=
  match shader_type with
  | ShaderType.Sun => sun_shader fragment uniforms
  | ShaderType.RockyPlanet => rocky_planet_shader cloud_noise fragment uniforms
  | ShaderType.GasGiant => gas_giant_shader fragment uniforms
  | ShaderType.Moon => moon_shader fragment uniforms
  | ShaderType.RingedPlanet => gas_giant_shader fragment uniforms

/-- C5: the dispatcher is exhaustive over the closed five-tag set (each tag
routed to its archetype shader, with no default branch), and the
`RingedPlanet` tag produces exactly the same color as `GasGiant` for every
fragment and uniforms — it reuses `gas_giant_shader` verbatim. -/
theorem fragment_shader_dispatch (cloud_noise : NoiseField ℝ) (fragment : Fragment)
    (uniforms : Uniforms ℝ) :
    fragment_shader cloud_noise fragment uniforms ShaderType.RingedPlanet =
        fragment_shader cloud_noise fragment uniforms ShaderType.GasGiant ∧
      fragment_shader cloud_noise fragment uniforms ShaderType.Sun =
        sun_shader fragment uniforms ∧
      fragment_shader cloud_noise fragment uniforms ShaderType.RockyPlanet =
        rocky_planet_shader cloud_noise fragment uniforms ∧
      fragment_shader cloud_noise fragment uniforms ShaderType.GasGiant =
        gas_giant_shader fragment uniforms ∧
      fragment_shader cloud_noise fragment uniforms ShaderType.Moon =
        moon_shader fragment uniforms ∧
      fragment_shader cloud_noise fragment uniforms ShaderType.RingedPlanet =
        gas_giant_shader fragment uniforms ∧
      ∀ t : ShaderType,
        t = ShaderType.Sun ∨ t = ShaderType.RockyPlanet ∨ t = ShaderType.GasGiant ∨
          t = ShaderType.Moon ∨ t = ShaderType.RingedPlanet := by
  refine ⟨rfl, rfl, rfl, rfl, rfl, rfl, ?_⟩
  intro t
  cases t
  · exact Or.inl rfl
  · exact Or.inr (Or.inl rfl)
  · exact Or.inr (Or.inr (Or.inl rfl))
  · exact Or.inr (Or.inr (Or.inr (Or.inl rfl)))
  · exact Or.inr (Or.inr (Or.inr (Or.inr rfl)))

/-- C6: the Sun shader applies no lighting-intensity multiplier — two
fragments at the same position but different intensities yield identical
colors — whereas the RockyPlanet shader's final color is the pre-lighting
color scaled by the fragment's intensity (the same base color `B` scaled by
each intensity). -/
theorem sun_intensity_independent_rocky_scaled (uniforms : Uniforms ℝ)
    (cloud_noise : NoiseField ℝ) (pos : Vec3 ℝ) (i1 i2 : ℝ) :
    sun_shader ⟨pos, i1⟩ uniforms = sun_shader ⟨pos, i2⟩ uniforms ∧
      ∃ B : Color,
        rocky_planet_shader cloud_noise ⟨pos, i1⟩ uniforms = B.smul i1 ∧
          rocky_planet_shader cloud_noise ⟨pos, i2⟩ uniforms = B.smul i2 :=
  ⟨rfl, ⟨_, rfl, rfl⟩⟩

/-- C10: the Moon shader never reads the animation time — replacing the
`time` field of the uniforms by any value leaves the output bit-identical
(no Moon layer samples noise at a time-offset coordinate). -/
theorem moon_shader_time_independent (fragment : Fragment) (uniforms : Uniforms ℝ) (t : ℝ) :
    moon_shader fragment { uniforms with time := t } = moon_shader fragment uniforms := rfl

-- Channel bounds: every color built through the saturating cast has all
-- channels within [0, 255].
theorem blend_colors_channels_le (a b : Color) (f : K) :
    (blend_colors a b f).r ≤ 255 ∧ (blend_colors a b f).g ≤ 255 ∧
      (blend_colors a b f).b ≤ 255 :=
  ⟨asU8_le _, asU8_le _, asU8_le _⟩

theorem lerp_color_channels_le (a b : Color) (t : K) :
    (lerp_color a b t).r ≤ 255 ∧ (lerp_color a b t).g ≤ 255 ∧ (lerp_color a b t).b ≤ 255 :=
  ⟨asU8_le _, asU8_le _, asU8_le _⟩

theorem smul_channels_le (c : Color) (k : K) :
    (c.smul k).r ≤ 255 ∧ (c.smul k).g ≤ 255 ∧ (c.smul k).b ≤ 255 :=
  ⟨asU8_le _, asU8_le _, asU8_le _⟩

theorem sun_shader_channels_le (fragment : Fragment) (uniforms : Uniforms ℝ) :
    (sun_shader fragment uniforms).r ≤ 255 ∧ (sun_shader fragment uniforms).g ≤ 255 ∧
      (sun_shader fragment uniforms).b ≤ 255 := by
  unfold sun_shader
  dsimp only
  split
  · exact blend_colors_channels_le _ _ _
  · exact blend_colors_channels_le _ _ _

theorem rocky_planet_shader_channels_le (cloud_noise : NoiseField ℝ) (fragment : Fragment)
    (uniforms : Uniforms ℝ) :
    (rocky_planet_shader cloud_noise fragment uniforms).r ≤ 255 ∧
      (rocky_planet_shader cloud_noise fragment uniforms).g ≤ 255 ∧
      (rocky_planet_shader cloud_noise fragment uniforms).b ≤ 255 := by
  unfold rocky_planet_shader
  dsimp only
  exact smul_channels_le _ _

theorem gas_giant_shader_channels_le (fragment : Fragment) (uniforms : Uniforms ℝ) :
    (gas_giant_shader fragment uniforms).r ≤ 255 ∧
      (gas_giant_shader fragment uniforms).g ≤ 255 ∧
      (gas_giant_shader fragment uniforms).b ≤ 255 := by
  unfold gas_giant_shader
  dsimp only
  split
  · exact smul_channels_le _ _
  · exact smul_channels_le _ _

theorem moon_shader_channels_le (fragment : Fragment) (uniforms : Uniforms ℝ) :
    (moon_shader fragment uniforms).r ≤ 255 ∧ (moon_shader fragment uniforms).g ≤ 255 ∧
      (moon_shader fragment uniforms).b ≤ 255 := by
  unfold moon_shader
  dsimp only
  exact smul_channels_le _ _

/-- C8: for every shader tag, fragment (any finite position and intensity),
uniforms (any time, any noise field — in particular any field with samples
in [-1,1]), every channel of the dispatched color lies within [0, 255]: all
channel arithmetic goes through the saturating cast, which clamps and never
wraps. -/
theorem fragment_shader_channels_bounded (cloud_noise : NoiseField ℝ) (fragment : Fragment)
    (uniforms : Uniforms ℝ) (shader_type : ShaderType) :
    (fragment_shader cloud_noise fragment uniforms shader_type).r ≤ 255 ∧
      (fragment_shader cloud_noise fragment uniforms shader_type).g ≤ 255 ∧
      (fragment_shader cloud_noise fragment uniforms shader_type).b ≤ 255 := by
  cases shader_type
  · exact sun_shader_channels_le fragment uniforms
  · exact rocky_planet_shader_channels_le cloud_noise fragment uniforms
  · exact gas_giant_shader_channels_le fragment uniforms
  · exact moon_shader_channels_le fragment uniforms
  · exact gas_giant_shader_channels_le fragment uniforms

-- Evaluation lemmas for the polar layer.
theorem rockyPolar_of_gt (y : ℝ) (c : Color) (h : 0.7 < |y|) :
    rockyPolar y c = blend_colors c snow_color ((|y| - 0.7) / 0.3) := by
  unfold rockyPolar
  dsimp only
  rw [if_pos h]
  norm_num

theorem rockyPolar_of_le (y : ℝ) (c : Color) (h : |y| ≤ 0.7) : rockyPolar y c = c := by
  unfold rockyPolar
  dsimp only
  rw [if_neg (not_lt.mpr h)]

/-- C9: in the RockyPlanet shader, whenever the fragment's `|y|` exceeds
0.7 the color accumulated from the land/ocean and detail layers is blended
toward the snow color with factor `(|y| - 0.7) / 0.3` (before clouds and
lighting); when `|y| ≤ 0.7` the polar layer leaves that color unchanged. -/
theorem rocky_planet_snow_blend (cloud_noise : NoiseField ℝ) (fragment : Fragment)
    (uniforms : Uniforms ℝ) :
    (0.7 < |fragment.vertex_position.y| →
      rocky_planet_shader cloud_noise fragment uniforms =
        (rockyClouds
            (cloud_noise.get_noise_3d (fragment.vertex_position.x * 6 + uniforms.time * 0.2)
              (fragment.vertex_position.y * 6) (fragment.vertex_position.z * 6))
            (blend_colors
              (rockyDetail
                (uniforms.noise.get_noise_3d (fragment.vertex_position.x * 4)
                  (fragment.vertex_position.y * 4) (fragment.vertex_position.z * 4))
                (uniforms.noise.get_noise_3d (fragment.vertex_position.x * 10 + 100)
                  (fragment.vertex_position.y * 10) (fragment.vertex_position.z * 10))
                (rockyBaseColor
                  (uniforms.noise.get_noise_3d (fragment.vertex_position.x * 4)
                    (fragment.vertex_position.y * 4) (fragment.vertex_position.z * 4))))
              snow_color ((|fragment.vertex_position.y| - 0.7) / 0.3))).smul
          fragment.intensity) ∧
      (|fragment.vertex_position.y| ≤ 0.7 →
        rocky_planet_shader cloud_noise fragment uniforms =
          (rockyClouds
              (cloud_noise.get_noise_3d (fragment.vertex_position.x * 6 + uniforms.time * 0.2)
                (fragment.vertex_position.y * 6) (fragment.vertex_position.z * 6))
              (rockyDetail
                (uniforms.noise.get_noise_3d (fragment.vertex_position.x * 4)
                  (fragment.vertex_position.y * 4) (fragment.vertex_position.z * 4))
                (uniforms.noise.get_noise_3d (fragment.vertex_position.x * 10 + 100)
                  (fragment.vertex_position.y * 10) (fragment.vertex_position.z * 10))
                (rockyBaseColor
                  (uniforms.noise.get_noise_3d (fragment.vertex_position.x * 4)
                    (fragment.vertex_position.y * 4) (fragment.vertex_position.z * 4))))).smul
            fragment.intensity) := by
  constructor
  · intro h
    unfold rocky_planet_shader
    dsimp only
    rw [rockyPolar_of_gt _ _ h]
  · intro h
    unfold rocky_planet_shader
    dsimp only
    rw [rockyPolar_of_le _ _ h]

-- Concrete real-valued data shared by the scenario claims.
def zeroNoiseR : NoiseField ℝ := ⟨fun _ _ => 0, fun _ _ _ => 0⟩

def mat4ZeroR : Mat4 ℝ := ⟨0, 0, 0, 0, 0, 0, 0, 0, 0, 0, 0, 0, 0, 0, 0, 0⟩

/-- Uniforms with a stub noise field that returns 0 for all queries. -/
def probeUniformsR : Uniforms ℝ := ⟨mat4ZeroR, mat4ZeroR, mat4ZeroR, mat4ZeroR, 0, zeroNoiseR⟩

/-- C9 (witness): the polar-blend law at `position = (0, 1, 0)` (so
`|y| = 1 > 0.7`), intensity 1, stub noise. -/
theorem rocky_planet_snow_blend_witness :
    (0.7 : ℝ) < |(1 : ℝ)| ∧
      rocky_planet_shader zeroNoiseR ⟨⟨0, 1, 0⟩, 1⟩ probeUniformsR =
        (rockyClouds (zeroNoiseR.get_noise_3d ((0 : ℝ) * 6 + probeUniformsR.time * 0.2)
              ((1 : ℝ) * 6) ((0 : ℝ) * 6))
            (blend_colors
              (rockyDetail
                (probeUniformsR.noise.get_noise_3d ((0 : ℝ) * 4) ((1 : ℝ) * 4) ((0 : ℝ) * 4))
                (probeUniformsR.noise.get_noise_3d ((0 : ℝ) * 10 + 100) ((1 : ℝ) * 10)
                  ((0 : ℝ) * 10))
                (rockyBaseColor
                  (probeUniformsR.noise.get_noise_3d ((0 : ℝ) * 4) ((1 : ℝ) * 4) ((0 : ℝ) * 4))))
              snow_color ((|(1 : ℝ)| - 0.7) / 0.3))).smul (1 : ℝ) :=
  ⟨by norm_num,
    (rocky_planet_snow_blend zeroNoiseR ⟨⟨0, 1, 0⟩, 1⟩ probeUniformsR).1 (by norm_num)⟩

/-- A blend with factor 0 returns the base color unchanged (for channels in
range, as produced by every shader operation). -/
theorem blend_colors_factor_zero (c c' : Color) (hr : c.r ≤ 255) (hg : c.g ≤ 255)
    (hb : c.b ≤ 255) : blend_colors c c' (0 : K) = c := by
  obtain ⟨r, g, b⟩ := c
  simp only [blend_colors, clamp01_zero, sub_zero, mul_one, mul_zero, add_zero]
  rw [asU8_natCast, asU8_natCast, asU8_natCast]
  simp only [Color.new, Color.to_hex, Color.mk.injEq]
  dsimp only at hr hg hb
  refine ⟨?_, ?_, ?_⟩ <;> omega

/-- Scalar modulation by intensity 1 is the identity (for channels in
range). -/
theorem Color.smul_one (c : Color) (hr : c.r ≤ 255) (hg : c.g ≤ 255) (hb : c.b ≤ 255) :
    c.smul (1 : K) = c := by
  obtain ⟨r, g, b⟩ := c
  simp only [Color.smul, mul_one]
  rw [asU8_natCast, asU8_natCast, asU8_natCast]
  simp only [Color.new, Color.mk.injEq]
  dsimp only at hr hg hb
  refine ⟨?_, ?_, ?_⟩ <;> omega

theorem gasBandBase_channels_le (band_value : ℝ) :
    (gasBandBase band_value).r ≤ 255 ∧ (gasBandBase band_value).g ≤ 255 ∧
      (gasBandBase band_value).b ≤ 255 := by
  unfold gasBandBase
  dsimp only
  split
  · exact lerp_color_channels_le _ _ _
  split
  · exact lerp_color_channels_le _ _ _
  split
  · exact lerp_color_channels_le _ _ _
  · exact lerp_color_channels_le _ _ _

/-- With a stub noise field that returns 0 for every query and a fragment
outside the storm radius, the gas-giant shader reduces to the base band
color (the turbulence blend factor is `|0|·0.4 = 0`) scaled by the
fragment's intensity — and that band color is driven by `sin(y·15)`, a
direct sine of the fragment's y coordinate. -/
theorem gas_giant_shader_zero_noise (u : Uniforms ℝ) (f : Fragment)
    (h2 : ∀ x y, u.noise.get_noise_2d x y = 0)
    (h3 : ∀ x y z, u.noise.get_noise_3d x y z = 0)
    (hout : 0.09 ≤ (f.vertex_position.x - 0.3) ^ 2 + (f.vertex_position.y - 0.2) ^ 2) :
    gas_giant_shader f u =
      (gasBandBase ((Real.sin (f.vertex_position.y * 15) + 1) * 0.5)).smul f.intensity := by
  unfold gas_giant_shader
  dsimp only
  simp only [h2, h3, abs_zero, zero_mul, mul_zero, add_zero]
  have hs :
      ¬ Real.sqrt ((f.vertex_position.x - 0.3) ^ 2 + (f.vertex_position.y - 0.2) ^ 2) < 0.3 := by
    rw [not_lt]
    calc (0.3 : ℝ) = Real.sqrt 0.09 := by
          rw [show (0.09 : ℝ) = 0.3 ^ 2 by norm_num,
            Real.sqrt_sq (by norm_num : (0 : ℝ) ≤ 0.3)]
      _ ≤ _ := Real.sqrt_le_sqrt hout
  rw [if_neg hs]
  rw [blend_colors_factor_zero _ _ (gasBandBase_channels_le _).1 (gasBandBase_channels_le _).2.1
    (gasBandBase_channels_le _).2.2]

/-- C1 (amended): the 2D band-noise sample is computed but never used — the
base band value is `(sin(y·15)+1)/2`, a direct sine of position.  With a
stub noise field returning 0 for all queries and a fragment outside the
storm radius, the shader returns the interpolated band color determined by
the fragment's y coordinate (zero turbulence contribution), scaled by the
fragment's intensity; the result is *not* independent of y. -/
theorem gas_giant_zero_noise_band (u : Uniforms ℝ) (f : Fragment)
    (h2 : ∀ x y, u.noise.get_noise_2d x y = 0)
    (h3 : ∀ x y z, u.noise.get_noise_3d x y z = 0)
    (hout : 0.09 ≤ (f.vertex_position.x - 0.3) ^ 2 + (f.vertex_position.y - 0.2) ^ 2) :
    gas_giant_shader f u =
      (gasBandBase ((Real.sin (f.vertex_position.y * 15) + 1) * 0.5)).smul f.intensity :=
  gas_giant_shader_zero_noise u f h2 h3 hout

theorem gasBandBase_at_sin_zero :
    gasBandBase ((Real.sin ((0 : ℝ) * 15) + 1) * 0.5) = Color.mk 255 255 57 := by
  rw [show ((0 : ℝ) * 15) = 0 by norm_num, Real.sin_zero,
    show ((0 : ℝ) + 1) * 0.5 = 0.5 by norm_num]
  unfold gasBandBase
  dsimp only
  rw [if_neg (by norm_num : ¬ ((0.5 : ℝ) < 0.25)), if_neg (by norm_num : ¬ ((0.5 : ℝ) < 0.5)),
    if_pos (by norm_num : (0.5 : ℝ) < 0.75),
    show ((0.5 : ℝ) - 0.5) * 4 = 0 by norm_num, lerp_color_zero]
  decide

theorem gasBandBase_at_sin_pi_half :
    gasBandBase ((Real.sin ((Real.pi / 30) * 15) + 1) * 0.5) = Color.mk 212 165 116 := by
  rw [show (Real.pi / 30) * 15 = Real.pi / 2 by ring, Real.sin_pi_div_two,
    show ((1 : ℝ) + 1) * 0.5 = 1 by norm_num]
  unfold gasBandBase
  dsimp only
  rw [if_neg (by norm_num : ¬ ((1 : ℝ) < 0.25)), if_neg (by norm_num : ¬ ((1 : ℝ) < 0.5)),
    if_neg (by norm_num : ¬ ((1 : ℝ) < 0.75)),
    show ((1 : ℝ) - 0.75) * 4 = 1 by norm_num, lerp_color_one]
  decide

/-- C1 (counterexample): with the all-zero stub noise field, two fragments
both outside the storm radius that differ only in `y` (`y = 0` versus
`y = π/30`) receive different colors (`(255,255,57)` versus
`(212,165,116)`): the claimed independence from the y coordinate fails,
because the band value is a direct sine of `y·15` rather than a zero noise
phase. -/
theorem gas_giant_band_depends_on_y :
    gas_giant_shader ⟨⟨10, 0, 0⟩, 1⟩ probeUniformsR ≠
      gas_giant_shader ⟨⟨10, Real.pi / 30, 0⟩, 1⟩ probeUniformsR := by
  have e1 : gas_giant_shader ⟨⟨10, 0, 0⟩, 1⟩ probeUniformsR = Color.mk 255 255 57 := by
    rw [gas_giant_shader_zero_noise probeUniformsR ⟨⟨10, 0, 0⟩, 1⟩ (fun _ _ => rfl)
      (fun _ _ _ => rfl) (by norm_num)]
    show (gasBandBase ((Real.sin ((0 : ℝ) * 15) + 1) * 0.5)).smul (1 : ℝ) = Color.mk 255 255 57
    rw [gasBandBase_at_sin_zero]
    exact Color.smul_one _ (by norm_num) (by norm_num) (by norm_num)
  have e2 : gas_giant_shader ⟨⟨10, Real.pi / 30, 0⟩, 1⟩ probeUniformsR = Color.mk 212 165 116 := by
    rw [gas_giant_shader_zero_noise probeUniformsR ⟨⟨10, Real.pi / 30, 0⟩, 1⟩ (fun _ _ => rfl)
      (fun _ _ _ => rfl)
      (by
        show (0.09 : ℝ) ≤ ((10 : ℝ) - 0.3) ^ 2 + ((Real.pi / 30 : ℝ) - 0.2) ^ 2
        nlinarith [sq_nonneg ((Real.pi / 30 : ℝ) - 0.2)])]
    show (gasBandBase ((Real.sin ((Real.pi / 30) * 15) + 1) * 0.5)).smul (1 : ℝ) =
      Color.mk 212 165 116
    rw [gasBandBase_at_sin_pi_half]
    exact Color.smul_one _ (by norm_num) (by norm_num) (by norm_num)
  rw [e1, e2]
  decide

/-- C1 (witness): the amended theorem applied at the stub-noise uniforms
and the fragment at `(10, 0, 0)` (outside the storm radius), intensity 1. -/
theorem gas_giant_zero_noise_band_witness :
    (∀ x y, probeUniformsR.noise.get_noise_2d x y = 0) ∧
      (∀ x y z, probeUniformsR.noise.get_noise_3d x y z = 0) ∧
      (0.09 : ℝ) ≤ ((10 : ℝ) - 0.3) ^ 2 + ((0 : ℝ) - 0.2) ^ 2 ∧
      gas_giant_shader ⟨⟨10, 0, 0⟩, 1⟩ probeUniformsR =
        (gasBandBase ((Real.sin ((0 : ℝ) * 15) + 1) * 0.5)).smul (1 : ℝ) :=
  ⟨fun _ _ => rfl, fun _ _ _ => rfl, by norm_num,
    gas_giant_zero_noise_band probeUniformsR ⟨⟨10, 0, 0⟩, 1⟩ (fun _ _ => rfl)
      (fun _ _ _ => rfl) (by norm_num)⟩

end ShadersRs
